import Mathlib

/-!
Verification of the micro-batching BERT inference service (`src/app.py`).

The service consists of:
- a Flask dispatcher (`classify`, route `/bert/classify/<string:sentence>`)
  that generates a microsecond-timestamp request id, enqueues a request on a
  shared request queue, and polls a shared response queue (re-enqueueing
  responses that carry other ids) under a 30-second budget;
- a pool of `ModelWorker` processes, each running a batching loop (`run`)
  that drains the request queue into a `batch` / `batch_ids` pair, flushes
  when the batch reaches 32 members or more than 0.1 s have elapsed since
  `last_process_time`, calls `predict`, and pushes one response per batch
  member onto the response queue; on any exception it pushes one error
  response per batch member and resets the batch.

Wall-clock time (`time.time()`) is modelled as a rational number of seconds.
Queues are modelled as lists (front = next element popped).  The external
BERT model is modelled as an abstract function from the batched sentences to
either a failure message or a softmax distribution per sentence.
-/

namespace ModelService

/-- A request as built by `classify` (`src/app.py:169-172`):
`{'request_id': ..., 'sentence': ...}`. -/
structure Request where
  request_id : Int
  sentence : String
deriving DecidableEq, Repr

/-- A response as built by `ModelWorker.predict` (success,
`src/app.py:94-99`) or by the error path of `ModelWorker.run`
(`src/app.py:134-139`).  The dispatcher distinguishes the two by the
presence of the `'error'` key. -/
inductive Response where
  | ok (request_id : Int) (cls : Nat) (confidence : ℚ) (worker_id : Nat)
  | err (request_id : Int) (msg : String) (worker_id : Nat)
deriving DecidableEq, Repr

/-- The `result['request_id']` field, present in both response shapes. -/
def Response.rid : Response → Int
  | .ok r _ _ _ => r
  | .err r _ _ => r

/-- The `result['worker_id']` field, present in both response shapes. -/
def Response.wid : Response → Nat
  | .ok _ _ _ w => w
  | .err _ _ w => w

/-- The id generator `request_id = int(time.time() * 1000000)` (`src/app.py:166`).
Python `int()` truncates toward zero, which for the nonnegative Unix
timestamps produced by `time.time()` is the floor. -/
def genRequestId (t : ℚ) : Int :=
  ⌊t * 1000000⌋

/-- The label table `class_mapping = {0: 'none', 1: 'product', 2: 'series'}` followed by
`class_mapping.get(result['class'], 'none')` (`src/app.py:187-188`). -/
def classMapping (c : Nat) : String :=
  if c = 0 then "none"
  else if c = 1 then "product"
  else if c = 2 then "series"
  else "none"

/-- The JSON body of a 200 response from `classify` (`src/app.py:190-196`),
minus the wall-clock `processing_time` field, which is pure timing glue. -/
structure SuccessBody where
  cls : String
  sentence : String
  confidence : ℚ
  worker_id : Nat
deriving DecidableEq, Repr

/-- The three client-visible outcomes of `classify`: 200 with a result body,
500 with an error message, 408 `Request timeout`. -/
inductive ClassifyOutcome where
  | success (body : SuccessBody)
  | failure (msg : String)
  | timeout
deriving DecidableEq, Repr

/-- What `classify` returns once it has popped a response whose id matches
its own (`src/app.py:182-196`): the 500 error branch if the response carries
an `'error'` key, otherwise the 200 success branch with the mapped label. -/
def responseOutcome (sentence : String) : Response → ClassifyOutcome
  | .err _ msg _ => .failure msg
  | .ok _ c conf w => .success ⟨classMapping c, sentence, conf, w⟩

/-- The bounded-wait polling loop of `classify` (`src/app.py:178-203`),
over a response queue modelled as a list (head = next `get`).  `fuel` is
the number of poll attempts the 30-second budget still allows (each
`response_queue.get(timeout=0.1)` consumes a slice of the budget).  An
empty queue is the `get` raising `Empty`, caught by `except: continue`.
A response with a foreign id is pushed back onto the tail of the queue
(`response_queue.put(result)`) and polling continues.  Returns the outcome
together with the final state of the response queue. -/
def waitLoop (rid : Int) (sentence : String) :
    Nat → List Response → ClassifyOutcome × List Response
  | 0, q => (.timeout, q)
  | fuel + 1, [] => waitLoop rid sentence fuel []
  | fuel + 1, r :: rest =>
    if r.rid = rid then (responseOutcome sentence r, rest)
    else waitLoop rid sentence fuel (rest ++ [r])

/-- The shared mutable state of the Flask side (`src/app.py:150-154`):
the two process-shared queues and the round-robin counter. -/
structure ServerState where
  request_queue : List Request
  response_queue : List Response
  worker_counter : Nat
deriving DecidableEq, Repr

/-- Round-robin selection `get_next_worker` (`src/app.py:156-160`): under the lock, increments the
shared counter modulo 4 and returns the new value.  Returns
(updated counter, returned value). -/
def get_next_worker (counter : Nat) : Nat × Nat :=
  ((counter + 1) % 4, (counter + 1) % 4)

/-- The `classify` handler (`src/app.py:162-203`) as a state transformer:
generate the id from the current clock `t`, enqueue the request on the
shared request queue, then run the bounded-wait loop against the response
queue.  `get_next_worker` is never called on this path and the worker
counter is untouched. -/
def classify (sentence : String) (t : ℚ) (fuel : Nat) (s : ServerState) :
    ClassifyOutcome × ServerState :=
  let rid := genRequestId t
  let s1 : ServerState :=
    { s with request_queue := s.request_queue ++ [⟨rid, sentence⟩] }
  let res := waitLoop rid sentence fuel s1.response_queue
  (res.1, { s1 with response_queue := res.2 })

/-- The Flask route decorator of `classify` (`src/app.py:162`). -/
def classifyRoute : String := "/bert/classify/<string:sentence>"

/-- The HTTP methods of the `classify` route (`src/app.py:162`). -/
def classifyMethods : List String := ["GET"]

/-- The argmax `torch.argmax(pred).item()` (`src/app.py:92`): index of the first
maximal entry of the softmax distribution. -/
def argmaxIdx (pred : List ℚ) : Nat :=
  (pred.enum.foldl (fun best p => if best.2 < p.2 then p else best)
    (0, pred.headD 0)).1

/-- The result-building loop of `ModelWorker.predict`
(`src/app.py:90-99`): `for i, pred in enumerate(predictions):
results.append({'request_id': request_ids[i], 'class': argmax,
'confidence': pred[argmax], 'worker_id': ...})`.  `i` is the running
index; indexing `request_ids[i]` out of range raises (modelled as
`none`), which the outer `except` of `run` would then catch. -/
def buildResults (w : Nat) (request_ids : List Int) :
    Nat → List (List ℚ) → Option (List Response)
  | _, [] => some []
  | i, pred :: rest =>
    match request_ids[i]? with
    | none => none
    | some rid =>
      (buildResults w request_ids (i + 1) rest).map
        (fun rs => Response.ok rid (argmaxIdx pred) (pred.getD (argmaxIdx pred) 0) w :: rs)

/-- The body of `ModelWorker.predict` (`src/app.py:66-101`) on a flushed batch: the
tokenizer + BERT model + softmax pipeline is the external collaborator and
enters as `preds`, the per-sentence softmax distributions; the loop then
builds one response per distribution, tagging `request_ids[i]` and this
worker's id.  (The `isinstance(sentences, str)` wrapping branch is dead on
the flush path, which always passes lists.) -/
def workerPredict (w : Nat) (preds : List (List ℚ)) (request_ids : List Int) :
    Option (List Response) :=
  buildResults w request_ids 0 preds

/-- The per-iteration state of `ModelWorker.run` (`src/app.py:106-108`),
together with this worker's view of the outbound response queue (appended
to by `response_queue.put`). -/
structure WorkerState where
  batch : List String
  batch_ids : List Int
  last_process_time : ℚ
  respQ : List Response
deriving DecidableEq, Repr

/-- The flush test of `ModelWorker.run` (`src/app.py:122`):
`len(batch) >= 32 or (batch and current_time - last_process_time > 0.1)`. -/
def flushCond (batch : List String) (last now : ℚ) : Bool :=
  32 ≤ batch.length || (!batch.isEmpty && decide ((1 : ℚ)/10 < now - last))

/-- The flush body of `ModelWorker.run` (`src/app.py:123-141`): call
`predict` on the batch; on success push each result onto the response
queue in order, reset the batch and set `last_process_time` to the current
time; if the model call (or the indexing inside `predict`) raises, the
outer `except` pushes one error response per `batch_ids` member and resets
the batch without touching `last_process_time`.  `model` is the external
Predictor: either a failure message or one softmax distribution per
sentence. -/
def flushBatch (w : Nat) (model : List String → Except String (List (List ℚ)))
    (batch : List String) (batch_ids : List Int) (last now : ℚ)
    (respQ : List Response) : WorkerState :=
  match model batch with
  | .error msg =>
    ⟨[], [], last, respQ ++ batch_ids.map (fun rid => Response.err rid msg w)⟩
  | .ok preds =>
    match workerPredict w preds batch_ids with
    | some rs => ⟨[], [], now, respQ ++ rs⟩
    | none =>
      ⟨[], [], last,
        respQ ++ batch_ids.map (fun rid => Response.err rid "list index out of range" w)⟩

/-- One iteration of the `while True` loop of `ModelWorker.run`
(`src/app.py:110-141`): optionally dequeue one request (a `get` timeout is
`incoming = none`) and append its sentence and id to the two batch lists,
then flush if the flush condition holds at the current clock `now`.  The
loop body is total: every iteration produces a successor state, so the
loop never terminates, also on the error path. -/
def workerStep (w : Nat) (model : List String → Except String (List (List ℚ)))
    (incoming : Option Request) (now : ℚ) (s : WorkerState) : WorkerState :=
  let s1 : WorkerState :=
    match incoming with
    | some r =>
      { s with batch := s.batch ++ [r.sentence], batch_ids := s.batch_ids ++ [r.request_id] }
    | none => s
  if flushCond s1.batch s1.last_process_time now then
    flushBatch w model s1.batch s1.batch_ids s1.last_process_time now s1.respQ
  else s1

/-- The initial state of the batching loop (`src/app.py:106-108`):
empty batch lists, `last_process_time = time.time()` at loop entry. -/
def initWorkerState (t0 : ℚ) : WorkerState :=
  ⟨[], [], t0, []⟩

/-- A run of the batching loop: fold `workerStep` over a trace of
per-iteration events (the optionally dequeued request and the clock
reading of that iteration). -/
def workerRun (w : Nat) (model : List String → Except String (List (List ℚ)))
    (events : List (Option Request × ℚ)) (s0 : WorkerState) : WorkerState :=
  events.foldl (fun s e => workerStep w model e.1 e.2 s) s0

/-- The alignment invariant of the two batch lists: they are the
sentence and id projections of one list of requests (in particular they
have equal length and the i-th sentence belongs to the i-th id). -/
def Aligned (s : WorkerState) : Prop :=
  ∃ reqs : List Request,
    s.batch = reqs.map Request.sentence ∧ s.batch_ids = reqs.map Request.request_id

/-! ### Helper lemmas -/

theorem flushCond_iff (batch : List String) (last now : ℚ) :
    flushCond batch last now = true ↔
      32 ≤ batch.length ∨ (batch ≠ [] ∧ 1/10 < now - last) := by
  simp [flushCond, List.isEmpty_iff]

/-! ### Claim theorems -/

/-- C10: `classify` maps class index 0 to label `"none"`, 1 to `"product"`,
2 to `"series"`, and any index outside `{0, 1, 2}` to the default
`"none"` (the `dict.get` default), so every successful outcome carries one
of the three labels; the 200 body is built from the matched response with
the mapped label. -/
theorem c10_class_label_mapping :
    classMapping 0 = "none" ∧ classMapping 1 = "product" ∧ classMapping 2 = "series" ∧
    (∀ c : Nat, c ≠ 0 → c ≠ 1 → c ≠ 2 → classMapping c = "none") ∧
    (∀ c : Nat, classMapping c = "none" ∨ classMapping c = "product" ∨
      classMapping c = "series") ∧
    (∀ (s : String) (rid : Int) (c : Nat) (conf : ℚ) (w : Nat),
      responseOutcome s (Response.ok rid c conf w)
        = ClassifyOutcome.success ⟨classMapping c, s, conf, w⟩) := by
  refine ⟨rfl, rfl, rfl, ?_, ?_, fun s rid c conf w => rfl⟩
  · intro c h0 h1 h2
    simp [classMapping, h0, h1, h2]
  · intro c
    unfold classMapping
    split_ifs <;> simp

/-- Witness for C10 at the out-of-range index 5. -/
theorem c10_class_label_mapping_witness : classMapping 5 = "none" :=
  c10_class_label_mapping.2.2.2.1 5 (by decide) (by decide) (by decide)

/-- C7 counterexample: the route registered for `classify` is not
`/classify/<sentence>` — the source registers `/bert/classify/<string:sentence>`
(`src/app.py:162`). -/
theorem c7_route_counterexample : classifyRoute ≠ "/classify/<sentence>" := by
  decide

/-- C7 amended: the classification endpoint is exposed at
`GET /bert/classify/<string:sentence>`; the path segment after
`/bert/classify/` is the raw (URL-decoded, by Flask's `string` converter)
text input passed to the dispatcher. -/
theorem c7_bert_route :
    classifyRoute = "/bert/classify/<string:sentence>" ∧ classifyMethods = ["GET"] :=
  ⟨rfl, rfl⟩

/-- C5 counterexample: two distinct clock readings in the same microsecond
tick generate the same request id, so id generation is not injective
across submissions (`request_id = int(time.time() * 1000000)`,
`src/app.py:166`). -/
theorem c5_same_tick_counterexample :
    (1000000 : ℚ) ≠ 1000000 + 1/2000000 ∧
    genRequestId 1000000 = genRequestId (1000000 + 1/2000000) := by
  constructor
  · norm_num
  · norm_num [genRequestId]

/-- C5 amended: request ids are strictly increasing in the clock reading as
soon as the two calls' readings are at least one microsecond apart; in
particular two such calls always get distinct ids.  Calls falling in the
same microsecond tick can collide (see the counterexample), exactly the
collision the spec flags. -/
theorem c5_id_monotone (t1 t2 : ℚ) (h : t1 + 1/1000000 ≤ t2) :
    genRequestId t1 < genRequestId t2 := by
  unfold genRequestId
  have h6 : t1 * 1000000 + 1 ≤ t2 * 1000000 := by nlinarith
  have hf := Int.floor_le_floor h6
  rw [Int.floor_add_one] at hf
  omega

/-- Witness for C5 amended at `t1 = 0`, `t2 = 1`. -/
theorem c5_id_monotone_witness :
    (0 : ℚ) + 1/1000000 ≤ 1 ∧ genRequestId 0 < genRequestId 1 :=
  ⟨by norm_num, c5_id_monotone 0 1 (by norm_num)⟩

/-- C4 counterexample: the flush age is measured from `last_process_time`
(the time of the last flush, `src/app.py:122,130`), not from the first
unflushed member's arrival.  Concretely: the loop starts at time 0 with an
empty batch, the request queue stays empty until time 5, a request arrives
and is dequeued at time 5 — the very same iteration flushes it (the
response is emitted and `last_process_time` is updated), although the
batch size 1 has not reached 32 and zero time — not more than 100 ms — has
elapsed since the batch's first member arrived.  So a non-empty batch is
not flushed *exactly* when size ≥ 32 or >100 ms since first arrival. -/
theorem c4_first_arrival_counterexample :
    (workerStep 0 (fun _ => Except.ok [[1]]) (some ⟨42, "hi"⟩) 5
        (initWorkerState 0)).respQ = [Response.ok 42 0 1 0] ∧
    (workerStep 0 (fun _ => Except.ok [[1]]) (some ⟨42, "hi"⟩) 5
        (initWorkerState 0)).batch = [] ∧
    (workerStep 0 (fun _ => Except.ok [[1]]) (some ⟨42, "hi"⟩) 5
        (initWorkerState 0)).last_process_time = 5 ∧
    (1 : Nat) < 32 ∧ (5 : ℚ) - 5 ≤ 1/10 := by
  norm_num [workerStep, initWorkerState, flushCond, flushBatch, workerPredict,
    buildResults, argmaxIdx, List.enum, List.enumFrom, List.foldl]

/-- C4 amended: in every iteration a non-empty batch is flushed exactly
when its size has reached 32 or when more than 100 ms have elapsed since
the last flush (`last_process_time`) — which can be strictly earlier than
100 ms after the first member's arrival.  The claimed upper bound still
holds: since the last flush precedes the first member's arrival, a batch
is never held longer than 100 ms (plus one poll interval) past its first
member's arrival. -/
theorem c4_flush_timing (batch : List String) (last now arrival : ℚ)
    (hla : last ≤ arrival) :
    (flushCond batch last now = true ↔
      32 ≤ batch.length ∨ (batch ≠ [] ∧ 1/10 < now - last)) ∧
    (batch ≠ [] → 1/10 < now - arrival → flushCond batch last now = true) := by
  refine ⟨flushCond_iff batch last now, fun hne hlt => ?_⟩
  exact (flushCond_iff batch last now).mpr (Or.inr ⟨hne, by linarith⟩)

/-- Witness for C4 amended: a singleton batch whose first member arrived at
time 1, with the last flush at time 0, has flushed by time 5. -/
theorem c4_flush_timing_witness : flushCond ["x"] 0 5 = true :=
  (c4_flush_timing ["x"] 0 5 1 (by norm_num)).2 (by simp) (by norm_num)

theorem waitLoop_owns_result (rid : Int) (s : String) :
    ∀ (fuel : Nat) (q : List Response),
      (waitLoop rid s fuel q).1 = ClassifyOutcome.timeout ∨
      ∃ r ∈ q, r.rid = rid ∧ (waitLoop rid s fuel q).1 = responseOutcome s r := by
  intro fuel
  induction fuel with
  | zero => exact fun q => Or.inl rfl
  | succ n ih =>
    intro q
    match q with
    | [] =>
      rcases ih [] with h | ⟨r, hmem, _⟩
      · exact Or.inl (by simpa [waitLoop] using h)
      · cases hmem
    | r :: rest =>
      by_cases hr : r.rid = rid
      · exact Or.inr ⟨r, List.mem_cons_self r rest, hr, by simp [waitLoop, hr]⟩
      · rcases ih (rest ++ [r]) with h | ⟨r', hmem, hrid, hout⟩
        · exact Or.inl (by simpa [waitLoop, hr] using h)
        · refine Or.inr ⟨r', ?_, hrid, by simpa [waitLoop, hr] using hout⟩
          rcases List.mem_append.mp hmem with h1 | h1
          · exact List.mem_cons_of_mem r h1
          · simp only [List.mem_singleton] at h1
            exact h1 ▸ List.mem_cons_self r rest

theorem waitLoop_keeps_foreign (rid : Int) (s : String) :
    ∀ (fuel : Nat) (q : List Response) (x : Response), x ∈ q → x.rid ≠ rid →
      x ∈ (waitLoop rid s fuel q).2 := by
  intro fuel
  induction fuel with
  | zero => exact fun q x hmem _ => by simpa [waitLoop] using hmem
  | succ n ih =>
    intro q x hmem hne
    match q with
    | [] => cases hmem
    | r :: rest =>
      by_cases hr : r.rid = rid
      · have hx : x ∈ rest := by
          rcases List.mem_cons.mp hmem with h1 | h1
          · exact absurd (h1 ▸ hr) hne
          · exact h1
        simpa [waitLoop, hr] using hx
      · have hx : x ∈ rest ++ [r] := by
          rcases List.mem_cons.mp hmem with h1 | h1
          · simp [h1]
          · simp [h1]
        simpa [waitLoop, hr] using ih (rest ++ [r]) x hx hne

/-- C1: every call to `classify` either times out, or returns an outcome
built (by `responseOutcome`: 200 success body or 500 error body) from a
response whose `request_id` equals the id generated for this call's own
request; it never returns an outcome built from a response carrying a
different caller's id (`src/app.py:162-207`).  `fuel` is the number of
poll attempts the 30-second budget allows. -/
theorem c1_own_result_or_timeout (sentence : String) (t : ℚ) (fuel : Nat)
    (st : ServerState) :
    (classify sentence t fuel st).1 = ClassifyOutcome.timeout ∨
    ∃ r ∈ st.response_queue, r.rid = genRequestId t ∧
      (classify sentence t fuel st).1 = responseOutcome sentence r := by
  simpa [classify] using
    waitLoop_owns_result (genRequestId t) sentence fuel st.response_queue

/-- C6: when the dispatcher pops a response whose `request_id` differs from
its own pending id, it pushes that same response back onto the response
queue unchanged (`response_queue.put(result)`, `src/app.py:199`) and
continues polling; the mismatched response is never consumed — it is still
present in the queue left behind by the whole polling loop. -/
theorem c6_requeue_unchanged (rid : Int) (s : String) (r : Response)
    (fuel : Nat) (rest : List Response) (h : r.rid ≠ rid) :
    waitLoop rid s (fuel + 1) (r :: rest) = waitLoop rid s fuel (rest ++ [r]) ∧
    r ∈ (waitLoop rid s (fuel + 1) (r :: rest)).2 := by
  have hstep : waitLoop rid s (fuel + 1) (r :: rest)
      = waitLoop rid s fuel (rest ++ [r]) := by
    simp [waitLoop, h]
  refine ⟨hstep, ?_⟩
  rw [hstep]
  exact waitLoop_keeps_foreign rid s fuel (rest ++ [r]) r (by simp) h

/-- Witness for C6: a response with id 7 polled by the dispatcher awaiting
id 5 is requeued and survives the loop. -/
theorem c6_requeue_unchanged_witness :
    waitLoop 5 "s" 1 [Response.ok 7 0 1 2] = waitLoop 5 "s" 0 ([] ++ [Response.ok 7 0 1 2]) ∧
    Response.ok 7 0 1 2 ∈ (waitLoop 5 "s" 1 [Response.ok 7 0 1 2]).2 :=
  c6_requeue_unchanged 5 "s" (Response.ok 7 0 1 2) 0 [] (by simp [Response.rid])

/-- C8: handling a request leaves the shared `worker_counter` unchanged and
appends the request to the single shared request queue; the whole outcome
of `classify` is independent of the counter's value, so `get_next_worker`
— whose rotating value increments modulo 4 under the lock
(`src/app.py:156-160`) — is never used to steer a request to a specific
worker (`classify` never invokes it). -/
theorem c8_no_routing (sentence : String) (t : ℚ) (fuel : Nat) (s : ServerState) :
    (classify sentence t fuel s).2.worker_counter = s.worker_counter ∧
    (classify sentence t fuel s).2.request_queue
      = s.request_queue ++ [⟨genRequestId t, sentence⟩] ∧
    (∀ c : Nat, classify sentence t fuel { s with worker_counter := c }
      = ((classify sentence t fuel s).1,
         { (classify sentence t fuel s).2 with worker_counter := c })) ∧
    (∀ c : Nat, get_next_worker c = ((c + 1) % 4, (c + 1) % 4)) :=
  ⟨rfl, rfl, fun _ => rfl, fun _ => rfl⟩

theorem buildResults_spec (w : Nat) (ids : List Int) :
    ∀ (preds : List (List ℚ)) (i : Nat), i + preds.length ≤ ids.length →
      ∃ rs : List Response, buildResults w ids i preds = some rs ∧
        rs.length = preds.length ∧
        ∀ j : Nat, j < preds.length → ∃ rid c conf,
          ids[i + j]? = some rid ∧ rs[j]? = some (Response.ok rid c conf w) := by
  intro preds
  induction preds with
  | nil =>
    exact fun i _ => ⟨[], rfl, rfl, fun j hj => absurd hj (by simp)⟩
  | cons p rest ih =>
    intro i hlen
    simp only [List.length_cons] at hlen
    have hi : i < ids.length := by omega
    have hrid : ids[i]? = some ids[i] := List.getElem?_eq_getElem hi
    obtain ⟨rs', hbuild, hlen', hspec⟩ := ih (i + 1) (by omega)
    refine ⟨Response.ok ids[i] (argmaxIdx p) (p.getD (argmaxIdx p) 0) w :: rs',
      ?_, by simp [hlen'], ?_⟩
    · simp [buildResults, hrid, hbuild]
    · intro j hj
      cases j with
      | zero =>
        exact ⟨ids[i], argmaxIdx p, p.getD (argmaxIdx p) 0, by simp [hrid], by simp⟩
      | succ j' =>
        obtain ⟨rid', c, conf, h1, h2⟩ := hspec j' (by simpa using Nat.lt_of_succ_lt_succ hj)
        refine ⟨rid', c, conf, ?_, by simpa using h2⟩
        have hidx : i + (j' + 1) = i + 1 + j' := by omega
        rw [hidx]
        exact h1

/-- C2: when the Predictor call raised by a flush fails with message `msg`
for a batch of `k` pending requests, the worker enqueues exactly `k` error
responses — one per batch member, the i-th carrying the i-th member's
original `request_id`, the failure message and the worker's id — then
discards the batch (both lists reset to empty) without retrying
(`src/app.py:132-141`); the loop body is total, so the worker loop
continues past the error path instead of terminating. -/
theorem c2_error_responses (w : Nat)
    (model : List String → Except String (List (List ℚ)))
    (batch : List String) (ids : List Int) (last now : ℚ)
    (respQ : List Response) (msg : String) (k : Nat)
    (hk : ids.length = k) (hfail : model batch = .error msg) :
    (flushBatch w model batch ids last now respQ).respQ
      = respQ ++ ids.map (fun rid => Response.err rid msg w) ∧
    (ids.map (fun rid => Response.err rid msg w)).length = k ∧
    (∀ i : Nat, (ids.map (fun rid => Response.err rid msg w))[i]?
      = (ids[i]?).map (fun rid => Response.err rid msg w)) ∧
    (flushBatch w model batch ids last now respQ).batch = [] ∧
    (flushBatch w model batch ids last now respQ).batch_ids = [] := by
  refine ⟨?_, by simp [hk], fun i => List.getElem?_map _ _ _, ?_, ?_⟩ <;>
    simp [flushBatch, hfail]

/-- Witness for C2 at a failing batch of 5 (Scenario C of the spec). -/
theorem c2_error_responses_witness :
    (flushBatch 3 (fun _ => Except.error "boom") ["a", "b", "c", "d", "e"]
        [1, 2, 3, 4, 5] 0 1 []).respQ
      = [] ++ [1, 2, 3, 4, 5].map (fun rid => Response.err rid "boom" 3) ∧
    ([1, 2, 3, 4, 5].map (fun rid => Response.err rid "boom" 3)).length = 5 ∧
    (∀ i : Nat, ([1, 2, 3, 4, 5].map (fun rid => Response.err rid "boom" 3))[i]?
      = (([1, 2, 3, 4, 5] : List Int)[i]?).map (fun rid => Response.err rid "boom" 3)) ∧
    (flushBatch 3 (fun _ => Except.error "boom") ["a", "b", "c", "d", "e"]
        [1, 2, 3, 4, 5] 0 1 []).batch = [] ∧
    (flushBatch 3 (fun _ => Except.error "boom") ["a", "b", "c", "d", "e"]
        [1, 2, 3, 4, 5] 0 1 []).batch_ids = [] :=
  c2_error_responses 3 (fun _ => Except.error "boom") ["a", "b", "c", "d", "e"]
    [1, 2, 3, 4, 5] 0 1 [] "boom" 5 rfl rfl

/-- C3: a flushed batch of size `k` (1 ≤ k ≤ 32) whose Predictor call
succeeds produces exactly `k` result responses, appended onto the response
queue in the same order as the batch's requests, the j-th carrying the
j-th request's `request_id` and the producing worker's id
(`src/app.py:66-101` and `src/app.py:124-130`).  `preds` is the external
model's per-sentence softmax output, one distribution per batch member. -/
theorem c3_batch_results (w : Nat)
    (model : List String → Except String (List (List ℚ)))
    (batch : List String) (ids : List Int) (last now : ℚ)
    (respQ : List Response) (preds : List (List ℚ)) (k : Nat)
    (hm : model batch = .ok preds) (hp : preds.length = k)
    (hi : ids.length = k) (_h1 : 1 ≤ k) (_h32 : k ≤ 32) :
    ∃ rs : List Response,
      flushBatch w model batch ids last now respQ = ⟨[], [], now, respQ ++ rs⟩ ∧
      rs.length = k ∧
      ∀ j : Nat, j < k → ∃ rid c conf,
        ids[j]? = some rid ∧ rs[j]? = some (Response.ok rid c conf w) := by
  obtain ⟨rs, hbuild, hlen, hspec⟩ := buildResults_spec w ids preds 0 (by omega)
  refine ⟨rs, ?_, by omega, fun j hj => ?_⟩
  · simp [flushBatch, hm, workerPredict, hbuild]
  · simpa using hspec j (by omega)

/-- Witness for C3 at a concrete batch of 2 with a concrete model. -/
theorem c3_batch_results_witness :
    ∃ rs : List Response,
      flushBatch 7 (fun _ => Except.ok [[1/2, 1/3], [0, 1]]) ["a", "b"]
          [10, 20] 0 1 [] = ⟨[], [], 1, [] ++ rs⟩ ∧
      rs.length = 2 ∧
      ∀ j : Nat, j < 2 → ∃ rid c conf,
        ([10, 20] : List Int)[j]? = some rid ∧ rs[j]? = some (Response.ok rid c conf 7) :=
  c3_batch_results 7 (fun _ => Except.ok [[1/2, 1/3], [0, 1]]) ["a", "b"]
    [10, 20] 0 1 [] [[1/2, 1/3], [0, 1]] 2 rfl rfl rfl (by norm_num) (by norm_num)

theorem flushBatch_resets (w : Nat)
    (model : List String → Except String (List (List ℚ)))
    (batch : List String) (ids : List Int) (last now : ℚ)
    (respQ : List Response) :
    (flushBatch w model batch ids last now respQ).batch = [] ∧
    (flushBatch w model batch ids last now respQ).batch_ids = [] := by
  unfold flushBatch
  rcases model batch with msg | preds
  · exact ⟨rfl, rfl⟩
  · rcases h : workerPredict w preds ids with _ | rs <;> simp [h]

theorem workerStep_aligned (w : Nat)
    (model : List String → Except String (List (List ℚ)))
    (inc : Option Request) (now : ℚ) (s : WorkerState) (h : Aligned s) :
    Aligned (workerStep w model inc now s) := by
  obtain ⟨reqs, hb, hi⟩ := h
  rcases inc with _ | r
  · simp only [workerStep]
    by_cases hf : flushCond s.batch s.last_process_time now = true
    · rw [if_pos hf]
      obtain ⟨h1, h2⟩ := flushBatch_resets w model s.batch s.batch_ids
        s.last_process_time now s.respQ
      exact ⟨[], by rw [h1]; rfl, by rw [h2]; rfl⟩
    · rw [if_neg hf]
      exact ⟨reqs, hb, hi⟩
  · simp only [workerStep]
    by_cases hf : flushCond (s.batch ++ [r.sentence]) s.last_process_time now = true
    · rw [if_pos hf]
      obtain ⟨h1, h2⟩ := flushBatch_resets w model (s.batch ++ [r.sentence])
        (s.batch_ids ++ [r.request_id]) s.last_process_time now s.respQ
      exact ⟨[], by rw [h1]; rfl, by rw [h2]; rfl⟩
    · rw [if_neg hf]
      exact ⟨reqs ++ [r], by simp [hb], by simp [hi]⟩

theorem workerRun_aligned (w : Nat)
    (model : List String → Except String (List (List ℚ)))
    (events : List (Option Request × ℚ)) :
    ∀ s0 : WorkerState, Aligned s0 → Aligned (workerRun w model events s0) := by
  induction events with
  | nil => exact fun s0 h => h
  | cons e rest ih =>
    exact fun s0 h => ih (workerStep w model e.1 e.2 s0)
      (workerStep_aligned w model e.1 e.2 s0 h)

/-- C9: starting from the loop entry state (both batch lists empty), after
any sequence of loop iterations the payload list `batch` and the id list
`batch_ids` are the sentence and id projections of one list of requests —
index-aligned, hence of equal length; alignment implies equal lengths, and
every flush path and every error path of `flushBatch` resets both lists to
empty together (`src/app.py:103-141`). -/
theorem c9_batch_alignment (w : Nat)
    (model : List String → Except String (List (List ℚ)))
    (events : List (Option Request × ℚ)) (t0 : ℚ) :
    Aligned (workerRun w model events (initWorkerState t0)) ∧
    (∀ s : WorkerState, Aligned s → s.batch.length = s.batch_ids.length) ∧
    (∀ (batch : List String) (ids : List Int) (last now : ℚ) (respQ : List Response),
      (flushBatch w model batch ids last now respQ).batch = [] ∧
      (flushBatch w model batch ids last now respQ).batch_ids = []) := by
  refine ⟨workerRun_aligned w model events (initWorkerState t0) ⟨[], rfl, rfl⟩,
    fun s hs => ?_, fun batch ids last now respQ => flushBatch_resets _ _ _ _ _ _ _⟩
  obtain ⟨reqs, hb, hi⟩ := hs
  rw [hb, hi]
  simp

/-- Witness for C9 on a concrete two-iteration run. -/
theorem c9_batch_alignment_witness :
    (workerRun 0 (fun _ => Except.error "x")
        [(some ⟨1, "a"⟩, 1/100), (none, 2/100)] (initWorkerState 0)).batch.length
      = (workerRun 0 (fun _ => Except.error "x")
        [(some ⟨1, "a"⟩, 1/100), (none, 2/100)] (initWorkerState 0)).batch_ids.length :=
  (c9_batch_alignment 0 (fun _ => Except.error "x")
      [(some ⟨1, "a"⟩, 1/100), (none, 2/100)] 0).2.1 _
    (c9_batch_alignment 0 (fun _ => Except.error "x")
      [(some ⟨1, "a"⟩, 1/100), (none, 2/100)] 0).1

end ModelService
